import Mathlib

/-!
Verification of the student service manager (`final_project.py`) against its
natural-language specification.

The program is a Streamlit + MySQL CRUD application.  We shallowly embed the
parts the claims depend on:

* Python string helpers (`.strip()`, `.upper()`, `.lower()`, `.title()`) on the
  ASCII fragment (all data the application manipulates is ASCII; Python's
  unicode-aware behaviour outside ASCII is not modelled).
* the two regex validators `validate_email` / `validate_id`, including
  `re.match` semantics: matching is anchored at the start, and the `$` anchor
  also matches just before a single trailing newline; `re.match` returns a
  match object (modelled `some ()`) or `None` (modelled `none`).
* the database tables `Students`, `Services`, `StudentServices` as lists of
  rows (list order models the order the result set is returned in), and the
  interactive workflows as state-passing functions.  A pandas
  `df[mask]['col'].values[0]` on an empty selection raises `IndexError`; an
  uncaught `mysql.connector.Error` is `dbError`; both are modelled with
  `Except PyError`.
-/

/-! ### Python string helpers (ASCII fragment) -/

/-- Whitespace stripped by Python `str.strip()` (ASCII fragment). -/
def isPySpace (c : Char) : Bool :=
  c = ' ' || c = '\t' || c = '\n' || c = '\r' || c = '\x0b' || c = '\x0c'

/-- Python `str.strip()` (ASCII fragment). -/
def pyStrip (s : String) : String :=
  ⟨((s.data.dropWhile isPySpace).reverse.dropWhile isPySpace).reverse⟩

/-- Python `str.upper()` (ASCII fragment). -/
def pyUpper (s : String) : String :=
  ⟨s.data.map Char.toUpper⟩

/-- Python `str.lower()` (ASCII fragment). -/
def pyLower (s : String) : String :=
  ⟨s.data.map Char.toLower⟩

/-- Worker for Python `str.title()`: a letter is uppercased when the previous
character is not a letter, lowercased otherwise (ASCII fragment). -/
def pyTitleAux : List Char → Bool → List Char
  | [], _ => []
  | c :: t, prevAlpha =>
    if c.isAlpha then (if prevAlpha then c.toLower else c.toUpper) :: pyTitleAux t true
    else c :: pyTitleAux t false

/-- Python `str.title()` (ASCII fragment). -/
def pyTitle (s : String) : String :=
  ⟨pyTitleAux s.data false⟩

/-! ### The validators (final_project.py lines 26-31)

`validate_email` is `re.match(r'^[\w\.-]+@[\w\.-]+\.\w+$', email)` and
`validate_id` is `re.match(r'^S\d+$', sid)`.  The character classes are
modelled on the ASCII plane: `\w` is `[A-Za-z0-9_]`, `\d` is `[0-9]`. -/

/-- Python regex `\w` (ASCII fragment). -/
def isPyWordChar (c : Char) : Bool := c.isAlphanum || c = '_'

/-- Python regex `\d` (ASCII fragment). -/
def isPyDigit (c : Char) : Bool := c.isDigit

/-- Python regex class `[\w\.-]` (ASCII fragment). -/
def isWordDotHyphen (c : Char) : Bool := isPyWordChar c || c = '.' || c = '-'

/-- Python `$` (without `re.MULTILINE`) matches at the end of the string or
just before one trailing newline, so `re.match(r'^P$', s)` holds iff the body
`P` matches `s` with one trailing newline removed. -/
def stripFinalNewline (l : List Char) : List Char :=
  if l.getLast? = some '\n' then l.dropLast else l

/-- Body of `^S\d+$`: one capital `S` then one or more digits. -/
def matchIdCore : List Char → Bool
  | c :: ds => c = 'S' && !ds.isEmpty && ds.all isPyDigit
  | [] => false

/-- Body of the domain part `[\w\.-]+\.\w+` matched against the whole of
`rest`: working from the right, a nonempty run of `\w` characters, then a
literal dot, then a nonempty `[\w\.-]+` block. -/
def matchDomainCore (rest : List Char) : Bool :=
  match rest.reverse.dropWhile isPyWordChar with
  | c :: bRev =>
    c = '.' && !(rest.reverse.takeWhile isPyWordChar).isEmpty && !bRev.isEmpty &&
      bRev.all isWordDotHyphen
  | [] => false

/-- Body of `[\w\.-]+@[\w\.-]+\.\w+` matched against the whole of `l`: since
`@` is not in the class `[\w\.-]`, the local part of any match is exactly the
text before the first `@`. -/
def matchEmailCore (l : List Char) : Bool :=
  match l.dropWhile (fun c => c != '@') with
  | c :: rest =>
    c = '@' && !(l.takeWhile (fun c => c != '@')).isEmpty &&
      (l.takeWhile (fun c => c != '@')).all isWordDotHyphen && matchDomainCore rest
  | [] => false

/-- validate_email (final_project.py line 27-28): returns the match object
(`some ()`) or `None` (`none`). -/
def validate_email (email : String) : Option Unit :=
  if matchEmailCore (stripFinalNewline email.data) then some () else none

/-- validate_id (final_project.py line 30-31): returns the match object
(`some ()`) or `None` (`none`). -/
def validate_id (sid : String) : Option Unit :=
  if matchIdCore (stripFinalNewline sid.data) then some () else none

/-- Python truthiness of a `re.match` result: a match object is truthy,
`None` is falsy. -/
def pyTruthy (o : Option Unit) : Bool := o.isSome

/-! ### Spec-side shapes for the validators (from the claims' words) -/

/-- Shape stated by the spec for student ids: the string consists of the
single capital letter `S` followed by one or more decimal digits and nothing
else. -/
def idShape (l : List Char) : Prop :=
  ∃ ds, ds ≠ [] ∧ ds.all isPyDigit = true ∧ l = 'S' :: ds

/-- Shape stated by the spec for emails: `local@domain.tld` with a nonempty
run of word/dot/hyphen characters, an `@`, a nonempty word/dot/hyphen domain
block, a dot, and a nonempty final word-character label. -/
def emailShape (l : List Char) : Prop :=
  ∃ a b c, a ≠ [] ∧ a.all isWordDotHyphen = true ∧
    b ≠ [] ∧ b.all isWordDotHyphen = true ∧
    c ≠ [] ∧ c.all isPyWordChar = true ∧
    l = a ++ '@' :: (b ++ '.' :: c)

/-! ### Data model (tables of section 6, rows as returned by the driver) -/

/-- Row of the `Students` table. -/
structure Student where
  student_id : String
  name : String
  email : String
deriving DecidableEq

/-- Row of the `Services` table. -/
structure ServiceRec where
  service_id : String
  service_name : String
deriving DecidableEq

/-- Row of the `StudentServices` table. -/
structure SvcLog where
  student_service_id : String
  student_id : String
  service_id : String
  service_date : String
deriving DecidableEq

/-- Database state.  List order models the order result sets come back in. -/
structure DB where
  students : List Student
  services : List ServiceRec
  studentServices : List SvcLog
deriving DecidableEq

/-- Row of the `vw_StudentServiceTracker` view; the controller consumes the
columns `Student`, `Service`, `Date_Used`. -/
structure TrackerRow where
  Student : String
  Service : String
  Date_Used : String
deriving DecidableEq

/-- Exceptions the controller can let escape: a pandas `IndexError` from
`.values[0]` on an empty selection, or an uncaught `mysql.connector.Error`. -/
inductive PyError
  | indexError
  | dbError
deriving DecidableEq

deriving instance DecidableEq for Except

/-- User-visible outcome of a workflow step (`st.success` / `st.error` /
`st.warning`; message texts abridged to ASCII). -/
inductive UiMsg
  | success (text : String)
  | errorMsg (text : String)
  | warning (text : String)
deriving DecidableEq

/-- Outcome of the Delete-Student confirmation step (`st.toast` on deletion,
`st.error` on mismatch). -/
inductive DeleteOutcome
  | deleted (name : String)
  | verificationFailed
deriving DecidableEq

/-- Pandas pattern `df[df['name'] == n]['student_id'].values[0]` (lines 119,
136, 176): the `student_id` of the first row whose `name` equals `n`;
`none` models the `IndexError` raised when no row matches. -/
def lookupIdByName (students : List Student) (n : String) : Option String :=
  (students.find? (fun s => s.name == n)).map (fun s => s.student_id)

/-- Pandas pattern `sv_df[sv_df['service_name'] == n]['service_id'].values[0]`
(line 120). -/
def lookupServiceId (services : List ServiceRec) (n : String) : Option String :=
  (services.find? (fun v => v.service_name == n)).map (fun v => v.service_id)

/-- Referential integrity of the data model (section 3 invariants): every
`StudentServices` row references an existing student and an existing
service. -/
def refIntegrity (db : DB) : Bool :=
  db.studentServices.all (fun r =>
    db.students.any (fun s => s.student_id == r.student_id) &&
    db.services.any (fun v => v.service_id == r.service_id))

/-! ### Registration Desk workflows (final_project.py lines 77-186)

Each workflow receives the database state and the form inputs and returns
either an uncaught exception (`Except.error`) or the new state plus the
message shown.  `dbFail` says whether the workflow's SQL mutation statement
raises `mysql.connector.Error` (duplicate key, foreign-key violation, lost
connection, ...); reads are assumed to succeed. -/

/-- Add New Student (lines 82-105).  Inputs are normalised exactly as in the
source: `sid.strip().upper()`, `sname.strip().title()`,
`semail.strip().lower()`.  The `INSERT` is wrapped in try/except, so a
database error becomes an `st.error` message. -/
def addStudent (db : DB) (sidIn snameIn semailIn : String) (dbFail : Bool) :
    Except PyError (DB × UiMsg) :=
  let sid := pyUpper (pyStrip sidIn)
  let sname := pyTitle (pyStrip snameIn)
  let semail := pyLower (pyStrip semailIn)
  if pyTruthy (validate_id sid) = false then
    Except.ok (db, UiMsg.errorMsg "ID format error: Must start with S")
  else if pyTruthy (validate_email semail) = false then
    Except.ok (db, UiMsg.errorMsg "Invalid Email format.")
  else if dbFail then
    Except.ok (db, UiMsg.errorMsg "Error: db")
  else
    Except.ok ({ db with students := db.students ++ [⟨sid, sname, semail⟩] },
      UiMsg.success (sname ++ " added!"))

/-- Log Service Activity (lines 107-126).  The student and service selected
by name are resolved to ids with `.values[0]` (IndexError when the selection
is empty); the `INSERT` is wrapped in try/except. -/
def logService (db : DB) (logIdIn selectedSt selectedSv dateVal : String)
    (dbFail : Bool) : Except PyError (DB × UiMsg) :=
  let log_id := pyUpper (pyStrip logIdIn)
  match lookupIdByName db.students selectedSt with
  | none => Except.error PyError.indexError
  | some s_id =>
    match lookupServiceId db.services selectedSv with
    | none => Except.error PyError.indexError
    | some v_id =>
      if dbFail then Except.ok (db, UiMsg.errorMsg "Error: db")
      else
        Except.ok ({ db with studentServices :=
            db.studentServices ++ [⟨log_id, s_id, v_id, dateVal⟩] },
          UiMsg.success ("Registered " ++ selectedSv ++ " for " ++ selectedSt))

/-- Update Email (lines 128-139).  The input is `.strip().lower()`-normalised
before validation; an invalid email is rejected silently (no message, no
write).  The `UPDATE` is NOT wrapped in try/except, so a database error
propagates. -/
def updateEmail (db : DB) (targetSt newEmailIn : String) (dbFail : Bool) :
    Except PyError (DB × Option UiMsg) :=
  let new_email := pyLower (pyStrip newEmailIn)
  if pyTruthy (validate_email new_email) = true then
    match lookupIdByName db.students targetSt with
    | none => Except.error PyError.indexError
    | some tid =>
      if dbFail then Except.error PyError.dbError
      else
        Except.ok ({ db with students := db.students.map (fun s =>
            if s.student_id = tid then { s with email := new_email } else s) },
          some (UiMsg.success "Email updated!"))
  else Except.ok (db, none)

/-- Row of the joined `logs_query` (lines 151-157). -/
structure LogRow where
  student_service_id : String
  service_name : String
  service_date : String
deriving DecidableEq

/-- The label a log row is displayed and selected under (line 161). -/
def logLabel (r : LogRow) : String :=
  r.service_name ++ " (" ++ r.service_date ++ ")"

/-- The joined `logs_query` (lines 151-157): service logs of every student
whose `name` equals `n`, inner-joined with `Services`. -/
def logsForName (db : DB) (n : String) : List LogRow :=
  db.studentServices.filterMap (fun r =>
    if db.students.any (fun s => s.student_id == r.student_id && s.name == n) then
      match db.services.find? (fun v => v.service_id == r.service_id) with
      | some v => some ⟨r.student_service_id, v.service_name, r.service_date⟩
      | none => none
    else none)

/-- Drop a Specific Service (lines 147-171).  With no logs the controller
shows a warning; otherwise the selected label is resolved with `.values[0]`
and the `DELETE` (not wrapped in try/except) removes the row by
`student_service_id`. -/
def dropService (db : DB) (studentName selectedLabel : String) (dbFail : Bool) :
    Except PyError (DB × UiMsg) :=
  let logs := logsForName db studentName
  if logs.isEmpty then
    Except.ok (db, UiMsg.warning
      (studentName ++ " is not currently enrolled in any services."))
  else
    match (logs.find? (fun r => logLabel r == selectedLabel)).map
        (fun r => r.student_service_id) with
    | none => Except.error PyError.indexError
    | some log_id =>
      if dbFail then Except.error PyError.dbError
      else
        Except.ok ({ db with studentServices :=
            db.studentServices.filter (fun r => r.student_service_id != log_id) },
          UiMsg.success ("Service " ++ selectedLabel ++ " removed for " ++
            studentName ++ "."))

/-- Modelled from the spec: the schema (not under `src/`) enforces the
Student to StudentServiceLog cascade — "cascading deletes for
Student→StudentServiceLog must be enforced either by the schema (foreign key
`ON DELETE CASCADE`) or explicitly by the access layer issuing the child
delete first".  The access layer (line 181) issues no child delete, so the
schema cascade is modelled here: deleting the student also removes that
student's `StudentServices` rows. -/
def cascadeChildDelete (logs : List SvcLog) (sid : String) : List SvcLog :=
  logs.filter (fun r => r.student_id != sid)

/-- Delete Entire Student Profile (lines 173-186).  The expected id is the id
of the first student row whose name matches (`.values[0]`, computed while
rendering, so an empty student list raises IndexError before any button is
pressed).  The typed confirmation is `.strip().upper()`-normalised (line 177)
and compared with the expected id; on a match the `DELETE` (line 181, not
wrapped in try/except) runs, with the schema cascade of
`cascadeChildDelete`; on a mismatch an error is shown and nothing runs. -/
def deleteStudentProfile (db : DB) (selectedName typedConfirm : String)
    (dbFail : Bool) : Except PyError (DB × DeleteOutcome) :=
  match lookupIdByName db.students selectedName with
  | none => Except.error PyError.indexError
  | some expected_id =>
    let confirm_id := pyUpper (pyStrip typedConfirm)
    if confirm_id = expected_id then
      if dbFail then Except.error PyError.dbError
      else
        Except.ok ({ db with
            students := db.students.filter (fun s => s.student_id != confirm_id),
            studentServices := cascadeChildDelete db.studentServices confirm_id },
          DeleteOutcome.deleted selectedName)
    else Except.ok (db, DeleteOutcome.verificationFailed)

/-! ### Characterisation of the regex matchers -/

/-- Splitting `takeWhile`/`dropWhile` at the first element failing the
predicate. -/
lemma takeWhile_dropWhile_split {α : Type} (p : α → Bool) :
    ∀ (a : List α) (x : α) (rest : List α), a.all p = true → p x = false →
      (a ++ x :: rest).takeWhile p = a ∧ (a ++ x :: rest).dropWhile p = x :: rest
  | [], x, rest, _, hx => by
    simp [List.takeWhile_cons, List.dropWhile_cons, hx]
  | y :: a, x, rest, hall, hx => by
    rw [List.all_cons, Bool.and_eq_true] at hall
    have ih := takeWhile_dropWhile_split p a x rest hall.2 hx
    simp [List.takeWhile_cons, List.dropWhile_cons, hall.1, ih.1, ih.2]

/-- The id matcher body accepts exactly the spec shape `S` + digits. -/
lemma matchIdCore_iff (l : List Char) : matchIdCore l = true ↔ idShape l := by
  cases l with
  | nil => simp [matchIdCore, idShape]
  | cons c ds =>
    simp only [matchIdCore, Bool.and_eq_true, decide_eq_true_eq, Bool.not_eq_true',
      List.isEmpty_eq_false, idShape]
    constructor
    · rintro ⟨⟨rfl, hne⟩, hall⟩
      exact ⟨ds, hne, hall, rfl⟩
    · rintro ⟨ds', hne, hall, heq⟩
      rw [List.cons.injEq] at heq
      obtain ⟨rfl, rfl⟩ := heq
      exact ⟨⟨rfl, hne⟩, hall⟩

/-- A word/dot/hyphen character is not `@`. -/
lemma wdh_ne_at {x : Char} (h : isWordDotHyphen x = true) : (x != '@') = true := by
  rw [bne_iff_ne]
  rintro rfl
  exact absurd h (by decide)

/-- The domain matcher body accepts exactly `[\w\.-]+ . \w+`. -/
lemma matchDomainCore_iff (rest : List Char) :
    matchDomainCore rest = true ↔
      ∃ b c, b ≠ [] ∧ b.all isWordDotHyphen = true ∧
        c ≠ [] ∧ c.all isPyWordChar = true ∧ rest = b ++ '.' :: c := by
  constructor
  · intro h
    unfold matchDomainCore at h
    cases hsplit : rest.reverse.dropWhile isPyWordChar with
    | nil => rw [hsplit] at h; simp at h
    | cons x bRev =>
      rw [hsplit] at h
      simp only [Bool.and_eq_true, decide_eq_true_eq, Bool.not_eq_true',
        List.isEmpty_eq_false] at h
      obtain ⟨⟨⟨rfl, htw⟩, hbne⟩, hballrev⟩ := h
      have hdecomp := List.takeWhile_append_dropWhile isPyWordChar rest.reverse
      rw [hsplit] at hdecomp
      have halltw : (rest.reverse.takeWhile isPyWordChar).all isPyWordChar = true :=
        List.all_eq_true.mpr fun x hx => List.mem_takeWhile_imp hx
      generalize htw_def : rest.reverse.takeWhile isPyWordChar = tw at htw hdecomp halltw
      refine ⟨bRev.reverse, tw.reverse,
        fun hh => hbne (by simpa using hh), by rwa [List.all_reverse],
        fun hh => htw (by simpa using hh), by rwa [List.all_reverse], ?_⟩
      calc rest = rest.reverse.reverse := (List.reverse_reverse rest).symm
        _ = (tw ++ '.' :: bRev).reverse := by rw [hdecomp]
        _ = bRev.reverse ++ '.' :: tw.reverse := by simp
  · rintro ⟨b, c, hbne, hball, hcne, hcall, rfl⟩
    have hrev : (b ++ '.' :: c).reverse = c.reverse ++ '.' :: b.reverse := by
      simp [List.reverse_append]
    have hsplit := takeWhile_dropWhile_split isPyWordChar c.reverse '.' b.reverse
      (by rwa [List.all_reverse]) (by decide)
    unfold matchDomainCore
    rw [hrev, hsplit.2]
    simp only [Bool.and_eq_true, decide_eq_true_eq, Bool.not_eq_true',
      List.isEmpty_eq_false, List.all_reverse, hsplit.1]
    exact ⟨⟨⟨by simp, by simpa using hcne⟩, by simpa using hbne⟩, hball⟩

/-- The email matcher body accepts exactly the spec shape
`[\w\.-]+ @ [\w\.-]+ . \w+`. -/
lemma matchEmailCore_iff (l : List Char) : matchEmailCore l = true ↔ emailShape l := by
  constructor
  · intro h
    unfold matchEmailCore at h
    cases hsplit : l.dropWhile (fun c => c != '@') with
    | nil => rw [hsplit] at h; simp at h
    | cons x rest =>
      rw [hsplit] at h
      simp only [Bool.and_eq_true, decide_eq_true_eq, Bool.not_eq_true',
        List.isEmpty_eq_false] at h
      obtain ⟨⟨⟨rfl, hane⟩, haall⟩, hdom⟩ := h
      obtain ⟨b, c, hbne, hball, hcne, hcall, rfl⟩ := (matchDomainCore_iff rest).mp hdom
      have hdecomp := List.takeWhile_append_dropWhile (fun c => c != '@') l
      rw [hsplit] at hdecomp
      exact ⟨l.takeWhile (fun c => c != '@'), b, c, hane, haall, hbne, hball,
        hcne, hcall, hdecomp.symm⟩
  · rintro ⟨a, b, c, hane, haall, hbne, hball, hcne, hcall, rfl⟩
    have haall' : a.all (fun c => c != '@') = true :=
      List.all_eq_true.mpr fun x hx => wdh_ne_at (List.all_eq_true.mp haall x hx)
    have hsplit := takeWhile_dropWhile_split (fun c => c != '@') a '@'
      (b ++ '.' :: c) haall' (by decide)
    unfold matchEmailCore
    rw [hsplit.2]
    simp only [Bool.and_eq_true, decide_eq_true_eq, Bool.not_eq_true',
      List.isEmpty_eq_false, hsplit.1]
    exact ⟨⟨⟨by simp, hane⟩, haall⟩,
      (matchDomainCore_iff _).mpr ⟨b, c, hbne, hball, hcne, hcall, rfl⟩⟩

/-- No string accepted by the id body ends in a newline. -/
lemma matchIdCore_concat_newline (t : List Char) : matchIdCore (t ++ ['\n']) = false := by
  cases hb : matchIdCore (t ++ ['\n']) with
  | false => rfl
  | true =>
    exfalso
    obtain ⟨ds, _, hall, heq⟩ := (matchIdCore_iff _).mp hb
    have hmem : '\n' ∈ t ++ ['\n'] := List.mem_append_right _ (by simp)
    rw [heq] at hmem
    rcases List.mem_cons.mp hmem with h1 | h2
    · exact absurd h1 (by decide)
    · exact absurd (List.all_eq_true.mp hall '\n' h2) (by decide)

/-- No string accepted by the email body ends in a newline. -/
lemma matchEmailCore_concat_newline (t : List Char) :
    matchEmailCore (t ++ ['\n']) = false := by
  cases hb : matchEmailCore (t ++ ['\n']) with
  | false => rfl
  | true =>
    exfalso
    obtain ⟨a, b, c, _, haall, _, hball, _, hcall, heq⟩ := (matchEmailCore_iff _).mp hb
    have hmem : '\n' ∈ t ++ ['\n'] := List.mem_append_right _ (by simp)
    rw [heq] at hmem
    simp only [List.mem_append, List.mem_cons] at hmem
    rcases hmem with h | h | h | h | h
    · exact absurd (List.all_eq_true.mp haall '\n' h) (by decide)
    · exact absurd h (by decide)
    · exact absurd (List.all_eq_true.mp hball '\n' h) (by decide)
    · exact absurd h (by decide)
    · exact absurd (List.all_eq_true.mp hcall '\n' h) (by decide)

/-- Matching after `stripFinalNewline` is matching the string itself or the
string minus one trailing newline, for bodies that never end in newline. -/
lemma strip_newline_iff (p : List Char → Bool) (hnl : ∀ t, p (t ++ ['\n']) = false)
    (l : List Char) :
    p (stripFinalNewline l) = true ↔
      (p l = true ∨ ∃ t, l = t ++ ['\n'] ∧ p t = true) := by
  unfold stripFinalNewline
  by_cases h : l.getLast? = some '\n'
  · rw [if_pos h]
    rcases l.eq_nil_or_concat with rfl | ⟨t, x, rfl⟩
    · simp at h
    · rw [List.concat_eq_append] at h ⊢
      rw [List.getLast?_concat] at h
      obtain rfl : x = '\n' := Option.some.inj h
      rw [List.dropLast_concat]
      constructor
      · intro hp
        exact Or.inr ⟨t, rfl, hp⟩
      · rintro (hp | ⟨t', heq, hp⟩)
        · rw [hnl t] at hp; exact Bool.noConfusion hp
        · obtain rfl : t' = t := by
            have h2 := congrArg List.dropLast heq
            simpa [List.dropLast_concat] using h2.symm
          exact hp
  · rw [if_neg h]
    constructor
    · exact Or.inl
    · rintro (hp | ⟨t, rfl, hp⟩)
      · exact hp
      · rw [List.getLast?_concat] at h
        exact absurd rfl h

/-- Truthiness of `validate_id` reduced to the matcher body. -/
lemma pyTruthy_validate_id (s : String) :
    pyTruthy (validate_id s) = true ↔ matchIdCore (stripFinalNewline s.data) = true := by
  unfold pyTruthy validate_id
  by_cases h : matchIdCore (stripFinalNewline s.data) = true
  · simp [h]
  · simp [h]

/-- Truthiness of `validate_email` reduced to the matcher body. -/
lemma pyTruthy_validate_email (s : String) :
    pyTruthy (validate_email s) = true ↔
      matchEmailCore (stripFinalNewline s.data) = true := by
  unfold pyTruthy validate_email
  by_cases h : matchEmailCore (stripFinalNewline s.data) = true
  · simp [h]
  · simp [h]

/-! ### Claims C4, C5, C6 — the validators -/

/-- C4 (counterexample): the claim says `validate_id` is truthy iff the
string is `S` followed by digits and nothing else; but Python's `$` also
matches just before a trailing newline, so the string `"S1\n"` is accepted
although it is not of that shape. -/
theorem validate_id_counterexample_trailing_newline :
    pyTruthy (validate_id "S1\n") = true ∧ ¬ idShape ("S1\n".data) := by
  refine ⟨by decide, fun h => absurd ((matchIdCore_iff _).mpr h) (by decide)⟩

/-- C4 (amended): `validate_id s` is truthy iff `s` is `S` followed by one or
more decimal digits, possibly followed by one trailing newline; in
particular `"S101"` is accepted while `"s101"` and `"S10A"` are rejected. -/
theorem validate_id_amended_spec :
    (∀ s : String, pyTruthy (validate_id s) = true ↔
       (idShape s.data ∨ ∃ t, s.data = t ++ ['\n'] ∧ idShape t)) ∧
    pyTruthy (validate_id "S101") = true ∧
    pyTruthy (validate_id "s101") = false ∧
    pyTruthy (validate_id "S10A") = false := by
  refine ⟨fun s => ?_, by decide, by decide, by decide⟩
  rw [pyTruthy_validate_id, strip_newline_iff matchIdCore matchIdCore_concat_newline]
  exact or_congr (matchIdCore_iff _)
    (exists_congr fun t => and_congr Iff.rfl (matchIdCore_iff t))

/-- C5 (counterexample): the claim says `validate_email` is truthy iff the
string has the `local@domain.tld` shape; but Python's `$` also matches just
before a trailing newline, so `"a@b.c\n"` is accepted although it is not of
that shape. -/
theorem validate_email_counterexample_trailing_newline :
    pyTruthy (validate_email "a@b.c\n") = true ∧ ¬ emailShape ("a@b.c\n".data) := by
  refine ⟨by decide, fun h => absurd ((matchEmailCore_iff _).mpr h) (by decide)⟩

/-- C5 (amended): `validate_email s` is truthy iff `s` has the
`local@domain.tld` shape (word/dot/hyphen local part, `@`, word/dot/hyphen
domain block, dot, word-character label), possibly followed by one trailing
newline; in particular `"a.b@x.com"` is accepted while `"a@b"` and
`"@x.com"` are rejected.  The shape admits no whitespace, so the accepted
strings contain no internal whitespace. -/
theorem validate_email_amended_spec :
    (∀ s : String, pyTruthy (validate_email s) = true ↔
       (emailShape s.data ∨ ∃ t, s.data = t ++ ['\n'] ∧ emailShape t)) ∧
    pyTruthy (validate_email "a.b@x.com") = true ∧
    pyTruthy (validate_email "a@b") = false ∧
    pyTruthy (validate_email "@x.com") = false := by
  refine ⟨fun s => ?_, by decide, by decide, by decide⟩
  rw [pyTruthy_validate_email,
    strip_newline_iff matchEmailCore matchEmailCore_concat_newline]
  exact or_congr (matchEmailCore_iff _)
    (exists_congr fun t => and_congr Iff.rfl (matchEmailCore_iff t))

/-- C6 (counterexample): the claim says a non-matching string yields a falsy
value that is not null; but `re.match` returns `None` — the null value — on
a non-match, as `"a@b"` shows. -/
theorem validate_nonmatch_counterexample_returns_none :
    validate_email "a@b" = none ∧ pyTruthy (validate_email "a@b") = false := by
  exact ⟨by decide, by decide⟩

/-- C6 (amended): both validators are total functions over strings (they are
plain functions into `Option Unit` with no exception outcome, so they never
raise), and for every string the result is either a match object `some ()`
or `None`; the result is falsy exactly when it is `None` — the null value,
not a non-null falsy value. -/
theorem validators_total_and_nonmatch_is_none :
    ∀ s : String,
      (validate_id s = none ∨ validate_id s = some ()) ∧
      (pyTruthy (validate_id s) = false ↔ validate_id s = none) ∧
      (validate_email s = none ∨ validate_email s = some ()) ∧
      (pyTruthy (validate_email s) = false ↔ validate_email s = none) := by
  intro s
  refine ⟨?_, ?_, ?_, ?_⟩
  · unfold validate_id
    by_cases h : matchIdCore (stripFinalNewline s.data) = true
    · exact Or.inr (by simp [h])
    · exact Or.inl (by simp [h])
  · unfold pyTruthy
    cases validate_id s with
    | none => simp
    | some u => simp
  · unfold validate_email
    by_cases h : matchEmailCore (stripFinalNewline s.data) = true
    · exact Or.inr (by simp [h])
    · exact Or.inl (by simp [h])
  · unfold pyTruthy
    cases validate_email s with
    | none => simp
    | some u => simp

/-! ### Search & Manage (final_project.py lines 64-74)

The workflow builds `SELECT * FROM vw_StudentServiceTracker` and, when the
search box is nonempty, appends
`WHERE Student LIKE '{search}%' ORDER BY Student ASC` with the raw input
interpolated into the query string.  The interpolated query is modelled for
inputs that contain no single quote and no backslash (with either of those
the interpolation no longer yields this single LIKE filter, and full SQL
parsing is out of scope); within that domain, the `WHERE` clause is the SQL
`LIKE` pattern `search%`.  LIKE matching and the `ORDER BY` comparison are
modelled case-sensitively, per the spec's reading of the reference pattern;
the tie order of `ORDER BY` is unspecified in SQL, so any sort is a faithful
model and insertion sort is used. -/

/-- Does `f` hold of some suffix (including the empty one)?  Used for the
SQL LIKE `%` wildcard, which matches any run of characters. -/
def anySuffix (f : List Char → Bool) : List Char → Bool
  | [] => f []
  | c :: s => f (c :: s) || anySuffix f s

/-- SQL LIKE matching of a whole string against a pattern: `%` matches any
run of characters, `_` any single character, backslash escapes the next
pattern character, any other character matches itself (case-sensitively). -/
def likeMatch : List Char → List Char → Bool
  | [], s => s.isEmpty
  | c :: ps, [] => if c = '%' then likeMatch ps [] else false
  | c :: ps, d :: s' =>
    if c = '%' then likeMatch ps (d :: s') || anySuffix (likeMatch ps) s'
    else if c = '_' then likeMatch ps s'
    else if c = '\\' then
      match ps with
      | [] => false
      | e :: ps2 => (d = e) && likeMatch ps2 s'
    else (d = c) && likeMatch ps s'

/-- Does the string (second argument) start with the pattern (first
argument)?  The spec-side reading of `LIKE 'p%'`. -/
def listStartsWith : List Char → List Char → Bool
  | [], _ => true
  | _ :: _, [] => false
  | a :: as, b :: bs => (b = a) && listStartsWith as bs

/-- The `ORDER BY Student ASC` comparison. -/
def rowLe (a b : TrackerRow) : Prop := a.Student ≤ b.Student

instance : DecidableRel rowLe :=
  fun a b => inferInstanceAs (Decidable (a.Student ≤ b.Student))

instance : IsTotal TrackerRow rowLe := ⟨fun a b => le_total a.Student b.Student⟩

instance : IsTrans TrackerRow rowLe := ⟨fun _ _ _ h1 h2 => le_trans h1 h2⟩

/-- Search & Manage (lines 64-74): an empty search box returns the whole
tracker view unsorted (Python `if search:` treats the empty string as
false); otherwise the interpolated query filters with
`Student LIKE 'search%'` and orders by `Student` ascending. -/
def searchWorkflow (view : List TrackerRow) (search : String) : List TrackerRow :=
  if search = "" then view
  else
    List.insertionSort rowLe
      (view.filter (fun r => likeMatch (search.data ++ ['%']) r.Student.data))

/-- Matching against a pattern starting with `%` is a suffix search. -/
lemma anySuffix_percent (ps s : List Char) :
    anySuffix (likeMatch ps) s = likeMatch ('%' :: ps) s := by
  cases s with
  | nil =>
    rw [likeMatch.eq_def]
    simp [anySuffix]
  | cons d t =>
    rw [likeMatch.eq_def]
    simp [anySuffix]

/-- The empty pattern matches only the empty string. -/
lemma likeMatch_nil (s : List Char) : likeMatch [] s = s.isEmpty := by
  rw [likeMatch.eq_def]

/-- A lone `%` pattern matches every string. -/
lemma likeMatch_percent_nil (s : List Char) : likeMatch ['%'] s = true := by
  induction s with
  | nil => decide
  | cons c s ih =>
    rw [likeMatch.eq_def]
    simp [likeMatch_nil, anySuffix_percent, ih]

/-- For a pattern without LIKE metacharacters, `LIKE 'p%'` is exactly the
case-sensitive starts-with test. -/
lemma likeMatch_append_percent (pl : List Char)
    (hmeta : ∀ c ∈ pl, c ≠ '%' ∧ c ≠ '_' ∧ c ≠ '\\') (s : List Char) :
    likeMatch (pl ++ ['%']) s = listStartsWith pl s := by
  induction pl generalizing s with
  | nil => simp [likeMatch_percent_nil, listStartsWith]
  | cons c pl ih =>
    obtain ⟨hc1, hc2, hc3⟩ := hmeta c (List.mem_cons_self c pl)
    have hmeta' : ∀ x ∈ pl, x ≠ '%' ∧ x ≠ '_' ∧ x ≠ '\\' :=
      fun x hx => hmeta x (List.mem_cons_of_mem _ hx)
    cases s with
    | nil =>
      rw [likeMatch.eq_def]
      simp [hc1, listStartsWith]
    | cons d s' =>
      rw [likeMatch.eq_def]
      simp only [List.cons_append]
      rw [if_neg hc1]
      simp only [if_neg hc2, if_neg hc3]
      rw [ih hmeta' s']
      simp [listStartsWith]

/-! ### Claim C3 — Search & Manage -/

/-- C3 (counterexample): the claim says every non-empty search string `p`
returns exactly the rows whose `Student` starts with `p`; but the input is
interpolated into the LIKE pattern, so the search string `"%"` returns every
row — here a row whose `Student` value `"Bob"` does not start with `"%"`. -/
theorem search_counterexample_percent_wildcard :
    searchWorkflow [⟨"Bob", "Tutoring", "2024-01-01"⟩] "%" =
      [⟨"Bob", "Tutoring", "2024-01-01"⟩] ∧
    listStartsWith ("%".data) ("Bob".data) = false := by
  exact ⟨by decide, by decide⟩

/-- C3 (amended): for an empty search string the whole view is returned
unsorted; for a non-empty search string that contains no LIKE wildcard
(`%`, `_`), no backslash and no single quote (characters with which the
interpolated query is no longer a plain prefix filter), the result is a
permutation of exactly the rows whose `Student` value starts with the search
string case-sensitively, sorted by `Student` ascending. -/
theorem search_amended_prefix_filter_sorted :
    ∀ (view : List TrackerRow) (p : String),
      searchWorkflow view "" = view ∧
      (p ≠ "" → (∀ c ∈ p.data, c ≠ '%' ∧ c ≠ '_' ∧ c ≠ '\\' ∧ c ≠ '\'') →
        List.Sorted rowLe (searchWorkflow view p) ∧
        List.Perm (searchWorkflow view p)
          (view.filter (fun r => listStartsWith p.data r.Student.data))) := by
  intro view p
  constructor
  · simp [searchWorkflow]
  · intro hne hmeta
    have hfilter : view.filter (fun r => likeMatch (p.data ++ ['%']) r.Student.data)
        = view.filter (fun r => listStartsWith p.data r.Student.data) :=
      List.filter_congr fun r _ =>
        likeMatch_append_percent p.data
          (fun c hc => ⟨(hmeta c hc).1, (hmeta c hc).2.1, (hmeta c hc).2.2.1⟩)
          r.Student.data
    unfold searchWorkflow
    rw [if_neg hne, hfilter]
    exact ⟨List.sorted_insertionSort rowLe _, List.perm_insertionSort rowLe _⟩

/-- C3 (witness): the amended statement applied to a one-row view and the
search string `"B"`. -/
theorem search_amended_witness :
    List.Sorted rowLe (searchWorkflow [⟨"Bob", "Tutoring", "2024-01-01"⟩] "B") ∧
    List.Perm (searchWorkflow [⟨"Bob", "Tutoring", "2024-01-01"⟩] "B")
      ([(⟨"Bob", "Tutoring", "2024-01-01"⟩ : TrackerRow)].filter
        (fun r => listStartsWith "B".data r.Student.data)) :=
  (search_amended_prefix_filter_sorted [⟨"Bob", "Tutoring", "2024-01-01"⟩] "B").2
    (by decide) (by decide)

/-! ### Claims C1, C2 — Delete Student -/

/-- On a confirmation mismatch (after normalisation) nothing is mutated. -/
lemma deleteStudentProfile_mismatch (db : DB) (n typed eid : String) (f : Bool)
    (hl : lookupIdByName db.students n = some eid)
    (hne : pyUpper (pyStrip typed) ≠ eid) :
    deleteStudentProfile db n typed f =
      Except.ok (db, DeleteOutcome.verificationFailed) := by
  simp only [deleteStudentProfile, hl]
  rw [if_neg hne]

/-- On a confirmation match (after normalisation) the student row and, via
the schema cascade, the student's log rows are removed. -/
lemma deleteStudentProfile_match (db : DB) (n typed eid : String)
    (hl : lookupIdByName db.students n = some eid)
    (heq : pyUpper (pyStrip typed) = eid) :
    deleteStudentProfile db n typed false =
      Except.ok (⟨db.students.filter (fun s => s.student_id != eid),
        db.services, cascadeChildDelete db.studentServices eid⟩,
        DeleteOutcome.deleted n) := by
  simp only [deleteStudentProfile, hl, heq]
  simp

/-- Deleting all rows with the deleted id preserves referential integrity. -/
lemma refIntegrity_after_delete (db : DB) (eid : String)
    (h : refIntegrity db = true) :
    refIntegrity ⟨db.students.filter (fun s => s.student_id != eid),
      db.services, cascadeChildDelete db.studentServices eid⟩ = true := by
  simp only [refIntegrity, cascadeChildDelete, List.all_eq_true, Bool.and_eq_true,
    List.any_eq_true, beq_iff_eq] at h ⊢
  intro r hr
  rw [List.mem_filter, bne_iff_ne] at hr
  obtain ⟨hmem, hrne⟩ := hr
  obtain ⟨⟨s, hs, hsid⟩, hserv⟩ := h r hmem
  refine ⟨⟨s, ?_, hsid⟩, hserv⟩
  rw [List.mem_filter, bne_iff_ne]
  exact ⟨hs, fun hc => hrne (hsid.symm.trans hc)⟩

/-- C1 (counterexample): the claim says any typed string different from the
selected student's id aborts the deletion; but the typed confirmation is
normalised with `.strip().upper()` (line 177), so typing `"s1 "` — which
differs from the id `"S1"` — still deletes the student and the logs. -/
theorem deleteStudent_counterexample_unequal_typed_string :
    ("s1 " : String) ≠ "S1" ∧
    deleteStudentProfile
      ⟨[⟨"S1", "Ann", "a@x.com"⟩], [⟨"V1", "Tutoring"⟩],
        [⟨"L1", "S1", "V1", "2024-01-01"⟩]⟩
      "Ann" "s1 " false =
      Except.ok (⟨[], [⟨"V1", "Tutoring"⟩], []⟩, DeleteOutcome.deleted "Ann") := by
  exact ⟨by decide, by decide⟩

/-- C1 (amended): the Delete-Student workflow deletes only when the typed
confirmation, stripped of surrounding whitespace and uppercased, equals the
selected student's id; whenever the normalised typed string differs from
that id, a verification failure is reported and the database — the selected
student's row and all service-log rows included — is left exactly as it
was, whatever the database would have done to the delete statement. -/
theorem deleteStudent_amended_normalised_confirmation :
    ∀ (db : DB) (n typed eid : String) (f : Bool),
      lookupIdByName db.students n = some eid →
      (pyUpper (pyStrip typed) ≠ eid →
        deleteStudentProfile db n typed f =
          Except.ok (db, DeleteOutcome.verificationFailed)) ∧
      (pyUpper (pyStrip typed) = eid →
        ∃ db2, deleteStudentProfile db n typed false =
          Except.ok (db2, DeleteOutcome.deleted n)) := by
  intro db n typed eid f hl
  constructor
  · intro hne
    exact deleteStudentProfile_mismatch db n typed eid f hl hne
  · intro heq
    exact ⟨_, deleteStudentProfile_match db n typed eid hl heq⟩

/-- C1 (witness): a mismatching confirmation (`"Z9"` against id `"S1"`)
reports a verification failure and leaves the state unchanged. -/
theorem deleteStudent_amended_witness :
    deleteStudentProfile ⟨[⟨"S1", "Ann", "a@x.com"⟩], [],
        [⟨"L1", "S1", "V1", "2024-01-01"⟩]⟩ "Ann" "Z9" false =
      Except.ok (⟨[⟨"S1", "Ann", "a@x.com"⟩], [],
        [⟨"L1", "S1", "V1", "2024-01-01"⟩]⟩, DeleteOutcome.verificationFailed) :=
  (deleteStudent_amended_normalised_confirmation
    ⟨[⟨"S1", "Ann", "a@x.com"⟩], [], [⟨"L1", "S1", "V1", "2024-01-01"⟩]⟩
    "Ann" "Z9" "S1" false (by decide)).1 (by decide)

/-- C2: after a confirmed Delete-Student for the resolved id, the student's
row and every `StudentServices` row with that id are gone, and — starting
from a state satisfying referential integrity — every remaining
`StudentServices` row still references an existing student and an existing
service.  The cascade on `StudentServices` is the schema cascade modelled in
`cascadeChildDelete`. -/
theorem deleteStudent_cascade_preserves_integrity :
    ∀ (db : DB) (n typed eid : String),
      refIntegrity db = true →
      lookupIdByName db.students n = some eid →
      pyUpper (pyStrip typed) = eid →
      ∃ db2, deleteStudentProfile db n typed false =
          Except.ok (db2, DeleteOutcome.deleted n) ∧
        (∀ s ∈ db2.students, s.student_id ≠ eid) ∧
        (∀ r ∈ db2.studentServices, r.student_id ≠ eid) ∧
        refIntegrity db2 = true := by
  intro db n typed eid hint hl heq
  refine ⟨⟨db.students.filter (fun s => s.student_id != eid), db.services,
    cascadeChildDelete db.studentServices eid⟩,
    deleteStudentProfile_match db n typed eid hl heq, ?_, ?_,
    refIntegrity_after_delete db eid hint⟩
  · intro s hs
    rw [List.mem_filter, bne_iff_ne] at hs
    exact hs.2
  · intro r hr
    rw [cascadeChildDelete, List.mem_filter, bne_iff_ne] at hr
    exact hr.2

/-- C2 (witness): deleting student `S1` (typed `" s1 "`) from a two-student
state with three log rows. -/
theorem deleteStudent_cascade_witness :
    ∃ db2, deleteStudentProfile
        ⟨[⟨"S1", "Ann", "a@x.com"⟩, ⟨"S2", "Bob", "b@x.com"⟩],
          [⟨"V1", "Tutoring"⟩],
          [⟨"L1", "S1", "V1", "2024-01-01"⟩, ⟨"L2", "S1", "V1", "2024-01-02"⟩,
            ⟨"L3", "S2", "V1", "2024-01-03"⟩]⟩
        "Ann" " s1 " false =
        Except.ok (db2, DeleteOutcome.deleted "Ann") ∧
      (∀ s ∈ db2.students, s.student_id ≠ "S1") ∧
      (∀ r ∈ db2.studentServices, r.student_id ≠ "S1") ∧
      refIntegrity db2 = true :=
  deleteStudent_cascade_preserves_integrity
    ⟨[⟨"S1", "Ann", "a@x.com"⟩, ⟨"S2", "Bob", "b@x.com"⟩],
      [⟨"V1", "Tutoring"⟩],
      [⟨"L1", "S1", "V1", "2024-01-01"⟩, ⟨"L2", "S1", "V1", "2024-01-02"⟩,
        ⟨"L3", "S2", "V1", "2024-01-03"⟩]⟩
    "Ann" " s1 " "S1" (by decide) (by decide) (by decide)

/-! ### Claims C7, C8, C9, C10 — Registration Desk workflows -/

/-- With a valid (normalised) email and a resolvable student, Update Email
writes the normalised email to every row carrying the resolved id. -/
lemma updateEmail_valid_ok (db : DB) (t nIn tid : String)
    (hv : pyTruthy (validate_email (pyLower (pyStrip nIn))) = true)
    (hl : lookupIdByName db.students t = some tid) :
    updateEmail db t nIn false =
      Except.ok ({ db with students := db.students.map (fun s =>
          if s.student_id = tid then { s with email := pyLower (pyStrip nIn) } else s) },
        some (UiMsg.success "Email updated!")) := by
  simp [updateEmail, hv, hl]

/-- With an invalid (normalised) email, Update Email does nothing. -/
lemma updateEmail_invalid_silent (db : DB) (t nIn : String)
    (hv : pyTruthy (validate_email (pyLower (pyStrip nIn))) = false) :
    updateEmail db t nIn false = Except.ok (db, none) := by
  simp [updateEmail, hv]

/-- With resolvable student and service, Log Service appends one log row. -/
lemma logService_ok (db : DB) (l stn svn d sid vid : String)
    (hl : lookupIdByName db.students stn = some sid)
    (hv : lookupServiceId db.services svn = some vid) :
    logService db l stn svn d false =
      Except.ok ({ db with studentServices :=
          db.studentServices ++ [⟨pyUpper (pyStrip l), sid, vid, d⟩] },
        UiMsg.success ("Registered " ++ svn ++ " for " ++ stn)) := by
  simp [logService, hl, hv]

/-- C7 (counterexample): the claim says every database error in every
workflow is caught; but the Update-Email `UPDATE` (line 137) is not wrapped
in try/except, so a database error raised there propagates past the
controller. -/
theorem errorHandling_counterexample_updateEmail_uncaught :
    updateEmail ⟨[⟨"S1", "Ann", "old@x.com"⟩], [], []⟩ "Ann" "a@x.com" true =
      Except.error PyError.dbError := by decide

/-- C7 (amended): only the Add-Student and Log-Service `INSERT` statements
are guarded by try/except — a database error there is turned into an
`st.error` message and the workflow returns normally; a database error
raised by the Update-Email `UPDATE`, the Drop-Service `DELETE` or the
Delete-Student `DELETE` propagates past the controller uncaught. -/
theorem errorHandling_amended_only_inserts_guarded :
    (∀ (db : DB) (a b c : String) (f : Bool) (e : PyError),
      addStudent db a b c f ≠ Except.error e) ∧
    (∀ (db : DB) (l stn svn d : String) (f : Bool),
      logService db l stn svn d f ≠ Except.error PyError.dbError) ∧
    (∀ (db : DB) (t n tid : String),
      pyTruthy (validate_email (pyLower (pyStrip n))) = true →
      lookupIdByName db.students t = some tid →
      updateEmail db t n true = Except.error PyError.dbError) ∧
    (∀ (db : DB) (sn lbl : String) (r : LogRow),
      r ∈ logsForName db sn → logLabel r = lbl →
      dropService db sn lbl true = Except.error PyError.dbError) ∧
    (∀ (db : DB) (n typed eid : String),
      lookupIdByName db.students n = some eid →
      pyUpper (pyStrip typed) = eid →
      deleteStudentProfile db n typed true = Except.error PyError.dbError) := by
  refine ⟨?_, ?_, ?_, ?_, ?_⟩
  · intro db a b c f e
    by_cases hid : pyTruthy (validate_id (pyUpper (pyStrip a))) = false
    · simp [addStudent, hid]
    · by_cases hem : pyTruthy (validate_email (pyLower (pyStrip c))) = false
      · simp [addStudent, hid, hem]
      · cases f
        · simp [addStudent, hid, hem]
        · simp [addStudent, hid, hem]
  · intro db l stn svn d f
    rcases h1 : lookupIdByName db.students stn with _ | sid
    · simp [logService, h1]
    · rcases h2 : lookupServiceId db.services svn with _ | vid
      · simp [logService, h1, h2]
      · cases f
        · simp [logService, h1, h2]
        · simp [logService, h1, h2]
  · intro db t n tid hv hl
    simp [updateEmail, hv, hl]
  · intro db sn lbl r hr hlbl
    have hne : (logsForName db sn).isEmpty = false :=
      List.isEmpty_eq_false.mpr (List.ne_nil_of_mem hr)
    have hfind : ((logsForName db sn).find? (fun x => logLabel x == lbl)).isSome = true :=
      List.find?_isSome.mpr ⟨r, hr, by rw [beq_iff_eq]; exact hlbl⟩
    obtain ⟨y, hy⟩ := Option.isSome_iff_exists.mp hfind
    simp only [dropService]
    rw [hne, hy]
    simp
  · intro db n typed eid hl heq
    simp only [deleteStudentProfile, hl, heq]
    simp

/-- C7 (witness): the five parts of the amended statement at concrete
states — the two guarded inserts do not propagate the injected database
error, the three unguarded statements do. -/
theorem errorHandling_amended_witness :
    addStudent ⟨[], [], []⟩ "s1" "ann lee" "A@X.com" true ≠
      Except.error PyError.dbError ∧
    logService ⟨[], [], []⟩ "x" "Ann" "Tut" "d" true ≠
      Except.error PyError.dbError ∧
    updateEmail ⟨[⟨"S1", "Ann", "o@x.com"⟩], [], []⟩ "Ann" "a@x.com" true =
      Except.error PyError.dbError ∧
    dropService ⟨[⟨"S1", "Ann", "o@x.com"⟩], [⟨"V1", "Tut"⟩],
        [⟨"L1", "S1", "V1", "d1"⟩]⟩ "Ann" "Tut (d1)" true =
      Except.error PyError.dbError ∧
    deleteStudentProfile ⟨[⟨"S1", "Ann", "o@x.com"⟩], [], []⟩ "Ann" "s1" true =
      Except.error PyError.dbError :=
  ⟨errorHandling_amended_only_inserts_guarded.1 ⟨[], [], []⟩ "s1" "ann lee"
     "A@X.com" true PyError.dbError,
   errorHandling_amended_only_inserts_guarded.2.1 ⟨[], [], []⟩ "x" "Ann" "Tut"
     "d" true,
   errorHandling_amended_only_inserts_guarded.2.2.1
     ⟨[⟨"S1", "Ann", "o@x.com"⟩], [], []⟩ "Ann" "a@x.com" "S1"
     (by decide) (by decide),
   errorHandling_amended_only_inserts_guarded.2.2.2.1
     ⟨[⟨"S1", "Ann", "o@x.com"⟩], [⟨"V1", "Tut"⟩], [⟨"L1", "S1", "V1", "d1"⟩]⟩
     "Ann" "Tut (d1)" ⟨"L1", "Tut", "d1"⟩ (by decide) (by decide),
   errorHandling_amended_only_inserts_guarded.2.2.2.2
     ⟨[⟨"S1", "Ann", "o@x.com"⟩], [], []⟩ "Ann" "s1" "S1"
     (by decide) (by decide)⟩

/-- C8 (counterexample): the claim says no write happens whenever
`validate_email` is falsy of the new-email string; but the typed input is
`.strip().lower()`-normalised before validation (line 132), so for the input
`" a@x.com "` — on which `validate_email` is falsy — the update is still
performed. -/
theorem updateEmail_counterexample_raw_invalid_but_written :
    pyTruthy (validate_email " a@x.com ") = false ∧
    updateEmail ⟨[⟨"S1", "Ann", "old@x.com"⟩], [], []⟩ "Ann" " a@x.com " false =
      Except.ok (⟨[⟨"S1", "Ann", "a@x.com"⟩], [], []⟩,
        some (UiMsg.success "Email updated!")) := by
  exact ⟨by decide, by decide⟩

/-- C8 (amended): Update Email validates the stripped and lowercased input;
when that normalised string fails `validate_email` no row is touched, and
when it passes, exactly the rows carrying the resolved student's id get
their email set to the normalised string, every other student row and the
other tables being unchanged. -/
theorem updateEmail_amended_normalised_validation :
    ∀ (db : DB) (t nIn : String),
      (pyTruthy (validate_email (pyLower (pyStrip nIn))) = false →
        updateEmail db t nIn false = Except.ok (db, none)) ∧
      (∀ tid, pyTruthy (validate_email (pyLower (pyStrip nIn))) = true →
        lookupIdByName db.students t = some tid →
        updateEmail db t nIn false =
          Except.ok ({ db with students := db.students.map (fun s =>
              if s.student_id = tid then { s with email := pyLower (pyStrip nIn) }
              else s) },
            some (UiMsg.success "Email updated!")) ∧
        (∀ s ∈ db.students, s.student_id ≠ tid →
          s ∈ db.students.map (fun s =>
            if s.student_id = tid then { s with email := pyLower (pyStrip nIn) }
            else s))) := by
  intro db t nIn
  constructor
  · intro hv
    exact updateEmail_invalid_silent db t nIn hv
  · intro tid hv hl
    refine ⟨updateEmail_valid_ok db t nIn tid hv hl, ?_⟩
    intro s hs hne
    exact List.mem_map.mpr ⟨s, hs, by rw [if_neg hne]⟩

/-- C8 (witness): the valid branch at a concrete state — the input
`" A@X.com "` is normalised to `"a@x.com"` and written to the selected
student's row. -/
theorem updateEmail_amended_witness :
    updateEmail ⟨[⟨"S1", "Ann", "old@x.com"⟩], [], []⟩ "Ann" " A@X.com " false =
      Except.ok (⟨[⟨"S1", "Ann", "a@x.com"⟩], [], []⟩,
        some (UiMsg.success "Email updated!")) := by
  have h := (updateEmail_amended_normalised_validation
    ⟨[⟨"S1", "Ann", "old@x.com"⟩], [], []⟩ "Ann" " A@X.com ").2 "S1"
    (by decide) (by decide)
  exact h.1

/-- C9 (code bug evidence): with the `Students` table empty, submitting Log
Service, pressing Update Email with a valid address, or merely rendering the
Delete-Student step raises an uncaught pandas `IndexError` (`.values[0]` on
an empty selection) instead of the required empty-state message; only
Drop-a-Service degrades to a warning. -/
theorem emptyState_crash_evidence :
    logService ⟨[], [], []⟩ "SS10" "Ann" "Tutoring" "2024-01-01" false =
      Except.error PyError.indexError ∧
    updateEmail ⟨[], [], []⟩ "Ann" "a@x.com" false =
      Except.error PyError.indexError ∧
    deleteStudentProfile ⟨[], [], []⟩ "Ann" "S1" false =
      Except.error PyError.indexError ∧
    dropService ⟨[], [], []⟩ "Ann" "x" false =
      Except.ok (⟨[], [], []⟩,
        UiMsg.warning "Ann is not currently enrolled in any services.") := by
  exact ⟨by decide, by decide, by decide, by decide⟩

/-- The name-to-id resolution picks the first matching row of the result
set: it returns `some tid` exactly when the student list splits as a
(match-free) prefix, a first row named `n` carrying id `tid`, and a rest. -/
lemma lookupIdByName_first_match (students : List Student) (n tid : String)
    (hl : lookupIdByName students n = some tid) :
    ∃ pre s post, students = pre ++ s :: post ∧ s.name = n ∧
      s.student_id = tid ∧ ∀ x ∈ pre, x.name ≠ n := by
  obtain ⟨s, hfind, hsid⟩ := Option.map_eq_some'.mp hl
  obtain ⟨hp, pre, post, heq, hpre⟩ := List.find?_eq_some.mp hfind
  refine ⟨pre, s, post, heq, by rwa [beq_iff_eq] at hp, hsid, ?_⟩
  intro x hx
  have := hpre x hx
  rw [Bool.not_eq_true'] at this
  exact beq_eq_false_iff_ne.mp this

/-- C10: Log Service, Update Email and Delete Student identify the target
student by the displayed name; with two or more students sharing the name,
the name resolves to the `student_id` of the first matching row of the
result set, and the mutation touches only rows carrying that id — the other
students with that name keep their rows (and, for deletion, their logs)
unchanged, with no warning issued. -/
theorem mutations_resolve_first_name_match :
    ∀ (db : DB) (n tid logId svName date ne typed sid : String),
      (∃ s1 ∈ db.students, ∃ s2 ∈ db.students, s1 ≠ s2 ∧ s1.name = n ∧ s2.name = n) →
      lookupIdByName db.students n = some tid →
      (∃ pre s post, db.students = pre ++ s :: post ∧ s.name = n ∧
        s.student_id = tid ∧ ∀ x ∈ pre, x.name ≠ n) ∧
      (lookupServiceId db.services svName = some sid →
        logService db logId n svName date false =
          Except.ok ({ db with studentServices :=
              db.studentServices ++ [⟨pyUpper (pyStrip logId), tid, sid, date⟩] },
            UiMsg.success ("Registered " ++ svName ++ " for " ++ n))) ∧
      (pyTruthy (validate_email (pyLower (pyStrip ne))) = true →
        updateEmail db n ne false =
          Except.ok ({ db with students := db.students.map (fun s =>
              if s.student_id = tid then { s with email := pyLower (pyStrip ne) }
              else s) },
            some (UiMsg.success "Email updated!"))) ∧
      (pyUpper (pyStrip typed) = tid →
        deleteStudentProfile db n typed false =
          Except.ok (⟨db.students.filter (fun s => s.student_id != tid),
            db.services,
            db.studentServices.filter (fun r => r.student_id != tid)⟩,
            DeleteOutcome.deleted n)) := by
  intro db n tid logId svName date ne typed sid _ hl
  refine ⟨lookupIdByName_first_match db.students n tid hl, ?_, ?_, ?_⟩
  · intro hv
    exact logService_ok db logId n svName date tid sid hl hv
  · intro hv
    exact updateEmail_valid_ok db n ne tid hv hl
  · intro heq
    exact deleteStudentProfile_match db n typed tid hl heq

/-- C10 (witness): two students both named `Ann`; a confirmed deletion of
the name resolves to the first row's id `S1` and removes only that student
and that student's log, leaving the second `Ann` and her log intact. -/
theorem mutations_resolve_first_name_match_witness :
    deleteStudentProfile
      ⟨[⟨"S1", "Ann", "a@x.com"⟩, ⟨"S2", "Ann", "b@x.com"⟩],
        [⟨"V1", "Tutoring"⟩],
        [⟨"L1", "S1", "V1", "2024-01-01"⟩, ⟨"L2", "S2", "V1", "2024-01-02"⟩]⟩
      "Ann" " s1 " false =
      Except.ok (⟨[⟨"S2", "Ann", "b@x.com"⟩], [⟨"V1", "Tutoring"⟩],
        [⟨"L2", "S2", "V1", "2024-01-02"⟩]⟩, DeleteOutcome.deleted "Ann") := by
  have h := (mutations_resolve_first_name_match
    ⟨[⟨"S1", "Ann", "a@x.com"⟩, ⟨"S2", "Ann", "b@x.com"⟩],
      [⟨"V1", "Tutoring"⟩],
      [⟨"L1", "S1", "V1", "2024-01-01"⟩, ⟨"L2", "S2", "V1", "2024-01-02"⟩]⟩
    "Ann" "S1" "ss10" "Tutoring" "2024-01-01" "c@x.com" " s1 " "V1"
    (by decide) (by decide)).2.2.2 (by decide)
  exact h
